import Mathlib

/-!
Verification development for the ImageUtilityBot repository.

The Python sources are shallowly embedded: pure computations become Lean
functions, the Telegram handlers become explicit state-passing functions on a
session/filesystem model, and fallible steps return Except.  Machine integers
are modelled as Nat; the float division in the resize routine is modelled by
exact rational arithmetic with truncation to Nat (Python int() on a
non-negative value is floor).  Network and disk I/O is abstracted into an
environment record (whether the image decodes, whether the Telegram send
succeeds); everything else follows the source line by line.
-/

namespace ImageBot

/-- src/enums/image_size.py: class ImageSize(Enum) with members
ORIGINAL, SMALL, MEDIUM, LARGE, HUGE (declaration order). -/
inductive ImageSize where
  | ORIGINAL
  | SMALL
  | MEDIUM
  | LARGE
  | HUGE
deriving DecidableEq, Repr

/-- The string value carried by each enum member. -/
def ImageSize.value : ImageSize → String
  | .ORIGINAL => "original"
  | .SMALL => "720p"
  | .MEDIUM => "1080p"
  | .LARGE => "1440p"
  | .HUGE => "5000"

/-- Iteration order of the Python enum (member declaration order). -/
def ImageSize.members : List ImageSize :=
  [.ORIGINAL, .SMALL, .MEDIUM, .LARGE, .HUGE]

/-- src/enums/image_size.py: ImageSize.get_dimensions, a dict lookup that is
absent exactly for ORIGINAL. -/
def ImageSize.get_dimensions : ImageSize → Option (Nat × Nat)
  | .SMALL => some (1280, 720)
  | .MEDIUM => some (1920, 1080)
  | .LARGE => some (2560, 1440)
  | .HUGE => some (5000, 5000)
  | .ORIGINAL => none

/-- src/bot/image_utility_bot.py: create_size_keyboard builds one row per enum
member, each row holding the single button label size.value. -/
def create_size_keyboard : List (List String) :=
  ImageSize.members.map (fun s => [s.value])

/-- A numpy ndarray as produced by cv2.imread: height and width, plus an
optional third axis.  channelDim = none models a 2-dimensional (grayscale)
array, channelDim = some c a 3-dimensional array with c channels.  pixel r c k
is the value at row r, column c, channel k. -/
structure NDImage where
  height : Nat
  width : Nat
  channelDim : Option Nat
  pixel : Nat → Nat → Nat → Nat

/-- image.shape[-1]: the last axis length, which is the width for a
2-dimensional array and the channel count for a 3-dimensional one. -/
def NDImage.shapeLast (img : NDImage) : Nat :=
  match img.channelDim with
  | some c => c
  | none => img.width

/-- len(image.shape). -/
def NDImage.ndim (img : NDImage) : Nat :=
  match img.channelDim with
  | some _ => 3
  | none => 2

/-- The number of colour channels (1 for a 2-dimensional array). -/
def NDImage.channels (img : NDImage) : Nat :=
  match img.channelDim with
  | some c => c
  | none => 1

/-- The BGRA array cv2 builds from a BGR one: a fourth channel holding the
fully opaque value 255 is appended. -/
def withOpaqueAlpha (img : NDImage) : NDImage :=
  { img with
    channelDim := some 4,
    pixel := fun r c k => if k < 3 then img.pixel r c k else 255 }

/-- The BGR array cv2 builds from a BGRA one: the alpha channel is dropped. -/
def withoutAlpha (img : NDImage) : NDImage :=
  { img with channelDim := some 3 }

/-- cv2.cvtColor(image, cv2.COLOR_BGR2BGRA): requires a 3-channel input and
appends a fully opaque (255) alpha channel. -/
def cvtColor_BGR2BGRA (img : NDImage) : Except String NDImage :=
  if img.channelDim = some 3 then
    .ok (withOpaqueAlpha img)
  else
    .error "Invalid number of channels in input image"

/-- cv2.cvtColor(image, cv2.COLOR_BGRA2BGR): requires a 4-channel input and
drops the alpha channel. -/
def cvtColor_BGRA2BGR (img : NDImage) : Except String NDImage :=
  if img.channelDim = some 4 then
    .ok (withoutAlpha img)
  else
    .error "Invalid number of channels in input image"

/-- cv2.resize(image, (new_width, new_height), ...): produces an array with the
requested dimensions. -/
def cv2_resize (img : NDImage) (new_width new_height : Nat) : NDImage :=
  { img with width := new_width, height := new_height }

/-- src/image/image_handler.py: ImageHandler.resize_image.  The Python float
expressions int(new_width / aspect) and int(new_height * aspect) with
aspect = width / height are modelled exactly: both reduce to a floor of an
integer ratio, which is Nat division. -/
def ImageHandler.resize_image (image : NDImage) (target_size : ImageSize) :
    NDImage :=
  if target_size = ImageSize.ORIGINAL then
    image
  else
    match ImageSize.get_dimensions target_size with
    | none => image
    | some (target_width, target_height) =>
      let height := image.height
      let width := image.width
      if width > height then
        let new_width := min width target_width
        let new_height := new_width * height / width
        cv2_resize image new_width new_height
      else
        let new_height := min height target_height
        let new_width := new_height * width / height
        cv2_resize image new_width new_height

/-- src/bot/image/image_converter.py: the channel-handling block of
ImageConverter.process, between cv2.imread and resize_image.  The first test
is format_type == "png" and image.shape[-1] == 3; the second is
format_type != "png" and len(image.shape) > 2 and image.shape[-1] == 4;
otherwise the array is left untouched. -/
def ImageConverter.normalizeChannels (format_type : String) (image : NDImage) :
    Except String NDImage :=
  if format_type = "png" ∧ image.shapeLast = 3 then
    cvtColor_BGR2BGRA image
  else if format_type ≠ "png" ∧ image.ndim > 2 ∧ image.shapeLast = 4 then
    cvtColor_BGRA2BGR image
  else
    .ok image

/-- Messages the bot emits back to the chat: plain text answers and photo
deliveries (format, payload, caption). -/
inductive Msg where
  | text (s : String)
  | photo (format_type : String) (img : NDImage) (caption : String)

/-- The set of paths currently present on disk, as a list. -/
abbrev FileSystem := List String

/-- src/image/image_handler.py: ImageHandler.cleanup_files removes each listed
path that exists; a missing path is skipped and errors are swallowed. -/
def ImageHandler.cleanup_files (paths : List String) (fs : FileSystem) :
    FileSystem :=
  fs.filter (fun p => ¬ p ∈ paths)

/-- Filesystem events performed by send_processed_image, in order. -/
inductive FsEvent where
  | write (path : String)
  | remove (path : String)
deriving DecidableEq, Repr

/-- The fixed temporary output path used by send_processed_image:
f"downloads/temp_output.{format_type}". -/
def temp_path_for (format_type : String) : String :=
  "downloads/temp_output." ++ format_type

/-- Result of one send_processed_image call: the filesystem afterwards, the
messages sent, the ordered filesystem events, and ok or the ProcessingError
that the function re-raises. -/
structure SendResult where
  fs : FileSystem
  msgs : List Msg
  trace : List FsEvent
  result : Except String Unit

/-- src/image/image_handler.py: ImageHandler.send_processed_image.  cv2.imwrite
creates or overwrites the temp file; the Telegram delivery is abstracted by the
sendOk flag (false models any exception while reading back or sending, which
the except clause converts into a ProcessingError); the finally clause removes
the temp file in every case. -/
def ImageHandler.send_processed_image (sendOk : Bool) (fs : FileSystem)
    (image : NDImage) (format_type : String) (operation_name : String) :
    SendResult :=
  let temp_path := temp_path_for format_type
  let fs1 : FileSystem := temp_path :: fs.filter (fun p => p ≠ temp_path)
  let caption := "✅ " ++ operation_name ++ " completed successfully!\n" ++
    "Resolution: " ++ toString image.width ++ "x" ++ toString image.height
  if sendOk then
    { fs := ImageHandler.cleanup_files [temp_path] fs1,
      msgs := [Msg.photo format_type image caption],
      trace := [FsEvent.write temp_path, FsEvent.remove temp_path],
      result := .ok () }
  else
    { fs := ImageHandler.cleanup_files [temp_path] fs1,
      msgs := [],
      trace := [FsEvent.write temp_path, FsEvent.remove temp_path],
      result := .error "Failed to send processed image" }

/-- The I/O environment a processing run happens in: what cv2.imread or
PIL.Image.open yields for the downloaded file (none models a decode failure),
what rembg.remove produces from a decoded image, and whether the Telegram send
succeeds. -/
structure Env where
  decoded : Option NDImage
  rembg : NDImage → NDImage
  sendOk : Bool

/-- The except clause wrapped around a send in the process methods: a raised
ProcessingError is answered as an error text with the given prefix. -/
def catchSend (r : SendResult) (errText : String) :
    FileSystem × List Msg :=
  match r.result with
  | .ok _ => (r.fs, r.msgs)
  | .error e => (r.fs, r.msgs ++ [Msg.text (errText ++ e)])

/-- src/bot/image/image_converter.py: ImageConverter.process.  Every failure is
caught and answered as a Conversion Error text; on success the normalized,
resized image is sent in the requested format. -/
def ImageConverter.process (format_type : String) (env : Env)
    (fs : FileSystem) (target_size : ImageSize) : FileSystem × List Msg :=
  match env.decoded with
  | none => (fs, [Msg.text "🔴 Conversion Error: Failed to read image file"])
  | some image =>
    match ImageConverter.normalizeChannels format_type image with
    | .error e => (fs, [Msg.text ("🔴 Conversion Error: " ++ e)])
    | .ok image1 =>
      let image2 := ImageHandler.resize_image image1 target_size
      let r := ImageHandler.send_processed_image env.sendOk fs image2
        format_type ("Conversion to " ++ format_type.toUpper)
      catchSend r "🔴 Conversion Error: "

/-- src/image/background_remover.py: BackgroundRemover.process.  The decoded
image goes through rembg.remove, is resized unless the target is ORIGINAL, and
is always sent with format "png"; every failure is caught and answered as a
Background Removal Error text. -/
def BackgroundRemover.process (env : Env) (fs : FileSystem)
    (target_size : ImageSize) : FileSystem × List Msg :=
  match env.decoded with
  | none => (fs, [Msg.text "🔴 Background Removal Error: file open failed"])
  | some img =>
    let image := env.rembg img
    let image1 :=
      if target_size ≠ ImageSize.ORIGINAL then
        ImageHandler.resize_image image target_size
      else image
    let r := ImageHandler.send_processed_image env.sendOk fs image1
      "png" "Background removal"
    catchSend r "🔴 Background Removal Error: "

/-- src/image/image_processing.py: the aiogram FSM states of the workflow. -/
inductive FSMState where
  | selecting_action
  | selecting_size
  | processing
deriving DecidableEq, Repr

/-- The per-conversation data dict kept by FSMContext: each field is some v
exactly when the corresponding key has been stored by update_data. -/
structure SessionData where
  file_path : Option String
  format_choice : Option String
deriving DecidableEq, Repr

/-- A conversation FSM context: the current state (none when no state is set,
i.e. the initial awaiting-upload situation) and the stored data. -/
structure FSMContext where
  st : Option FSMState
  data : SessionData
deriving DecidableEq, Repr

/-- FSMContext.clear(): state unset and data emptied. -/
def FSMContext.clear : FSMContext :=
  { st := none, data := { file_path := none, format_choice := none } }

/-- The four registered operations, keyed "1".."4" in the handlers dict of
src/bot/image_utility_bot.py. -/
inductive Operation where
  | convertPng
  | convertJpg
  | convertWebp
  | removeBg
deriving DecidableEq, Repr

/-- self.handlers lookup: dict access modelled as an Option (a missing key
raises KeyError, which the surrounding except clause catches). -/
def handlers : String → Option Operation
  | "1" => some .convertPng
  | "2" => some .convertJpg
  | "3" => some .convertWebp
  | "4" => some .removeBg
  | _ => none

/-- The format_type each operation hands to send_processed_image. -/
def Operation.format : Operation → String
  | .convertPng => "png"
  | .convertJpg => "jpg"
  | .convertWebp => "webp"
  | .removeBg => "png"

/-- Python str.strip() on the character list: leading and trailing whitespace
removed. -/
def stripChars (l : List Char) : List Char :=
  ((l.dropWhile Char.isWhitespace).reverse.dropWhile
    Char.isWhitespace).reverse

/-- Python str.strip() as used on message.text. -/
def pyStrip (s : String) : String := String.mk (stripChars s.data)

/-- next(size for size in ImageSize if size.value == size_choice), with
StopIteration modelled as none. -/
def lookupSize (size_choice : String) : Option ImageSize :=
  ImageSize.members.find? (fun s => s.value = size_choice)

/-- Dispatch through the handlers dict and run the chosen operation. -/
def runHandler (op : Operation) (env : Env) (fs : FileSystem)
    (target_size : ImageSize) : FileSystem × List Msg :=
  match op with
  | .convertPng => ImageConverter.process "png" env fs target_size
  | .convertJpg => ImageConverter.process "jpg" env fs target_size
  | .convertWebp => ImageConverter.process "webp" env fs target_size
  | .removeBg => BackgroundRemover.process env fs target_size

/-- Result of one handle_size_choice invocation: the conversation context
afterwards, the filesystem afterwards, and the messages answered.  The handler
always returns normally: its try/except converts failures to messages. -/
structure HandlerOutcome where
  ctx : FSMContext
  fs : FileSystem
  msgs : List Msg

/-- src/bot/image_utility_bot.py: ImageUtilityBot.handle_size_choice.  data is
read from the context before the try block; inside it an unmatched size token
answers a rejection and returns, missing data or a bad handlers key raises an
exception that the except clause answers as a Processing Error; in all cases
the finally block clears the state and, when the data dict holds a file_path
key, removes that file. -/
def handle_size_choice (env : Env) (ctx : FSMContext) (text : String)
    (fs0 : FileSystem) : HandlerOutcome :=
  let data := ctx.data
  let size_choice := pyStrip text
  let body : FileSystem × List Msg :=
    match lookupSize size_choice with
    | none =>
      (fs0,
       [Msg.text "❌ Invalid size choice. Please select from the keyboard options."])
    | some target_size =>
      match data.file_path, data.format_choice with
      | some _, some format_choice =>
        match handlers format_choice with
        | none =>
          (fs0, [Msg.text ("❌ Processing Error: KeyError " ++ format_choice)])
        | some op => runHandler op env fs0 target_size
      | _, _ =>
        (fs0,
         [Msg.text "❌ Processing Error: Missing required processing data"])
  let fs2 :=
    match data.file_path with
    | some fp => ImageHandler.cleanup_files [fp] body.1
    | none => body.1
  { ctx := FSMContext.clear, fs := fs2, msgs := body.2 }

/-!
Concurrency model for handler invocations.  aiogram dispatches each update
as its own asyncio task, so two conversations can be inside the processing
pipeline at the same time; tasks can only switch at an await that actually
suspends.  Inside send_processed_image no such await exists between the
cv2.imwrite and the finally removal: the async-with delivery attempt raises
TypeError synchronously before any read (a builtin file object is not an
async context manager), the except clause re-raises synchronously, and
awaiting cleanup_files does not suspend because that coroutine contains no
await of its own.  The whole temp-file critical section of one conversation
is therefore a single uninterrupted event-loop slice, modelled below as one
atomic step.  The encoded bytes of an image file are abstracted as a Nat
tag. -/

/-- A shared on-disk store: path to encoded content. -/
abbrev Store := List (String × Nat)

/-- cv2.imwrite: create or overwrite the file at p. -/
def storeWrite (store : Store) (p : String) (v : Nat) : Store :=
  (p, v) :: store.filter (fun q => ¬ q.1 = p)

/-- Reading the file at p: the current content, none when it is absent. -/
def storeRead (store : Store) (p : String) : Option Nat :=
  (store.find? (fun q => q.1 = p)).map Prod.snd

/-- os.remove(p) under cleanup_files: missing files are skipped. -/
def storeRemove (store : Store) (p : String) : Store :=
  store.filter (fun q => ¬ q.1 = p)

/-- open(temp_path, "rb") used as an async context manager, as the delivery
step of send_processed_image does: a builtin file object defines no
asynchronous enter method, so the statement raises TypeError before any
read happens, whatever the file currently holds. -/
def asyncWithOpen (contents : Option Nat) : Except String (Option Nat) :=
  let _ := contents
  .error "TypeError: builtin file object is not an async context manager"

/-- One conversation about to run its send critical section: its requested
format, the encoded bytes of its own processed image, and what its delivery
attempt handed to its user. -/
structure SendTask where
  format_type : String
  content : Nat
  delivered : Option Nat
deriving DecidableEq, Repr

/-- The temp path this task uses, exactly as in send_processed_image. -/
def SendTask.path (t : SendTask) : String := temp_path_for t.format_type

/-- The whole send critical section of one conversation as the single
atomic step it is in the source: cv2.imwrite creates or overwrites the temp
file, the async-with delivery attempt raises TypeError before any read-back,
and the finally clause removes the temp file.  No statement in this span
suspends, so the event loop cannot run the other conversation inside it. -/
def atomicSendSlice (store : Store) (t : SendTask) : Store × SendTask :=
  let store1 := storeWrite store t.path t.content
  let delivered :=
    match asyncWithOpen (storeRead store1 t.path) with
    | .ok c => c
    | .error _ => none
  (storeRemove store1 t.path, { t with delivered := delivered })

/-- Two concurrent conversations over the shared downloads directory. -/
structure TwoConv where
  store : Store
  a : SendTask
  b : SendTask
deriving DecidableEq, Repr

/-- Run both critical sections in either order (the only schedules the
suspension points of the source allow). -/
def runBoth (s : TwoConv) (aFirst : Bool) : TwoConv :=
  if aFirst then
    let ra := atomicSendSlice s.store s.a
    let rb := atomicSendSlice ra.1 s.b
    { store := rb.1, a := ra.2, b := rb.2 }
  else
    let rb := atomicSendSlice s.store s.b
    let ra := atomicSendSlice rb.1 s.a
    { store := ra.1, a := ra.2, b := rb.2 }

/-- A plain test image of the given width, height and channel layout. -/
def mkImg (width height : Nat) (c : Option Nat) : NDImage :=
  { height := height, width := width, channelDim := c, pixel := fun _ _ _ => 0 }

@[simp]
lemma cv2_resize_width (img : NDImage) (w h : Nat) :
    (cv2_resize img w h).width = w := rfl

@[simp]
lemma cv2_resize_height (img : NDImage) (w h : Nat) :
    (cv2_resize img w h).height = h := rfl

lemma get_dimensions_ne_original {sz : ImageSize} {d : Nat × Nat}
    (h : ImageSize.get_dimensions sz = some d) : ¬ sz = ImageSize.ORIGINAL := by
  intro he
  subst he
  simp [ImageSize.get_dimensions] at h

/-- Unfolding of resize_image for a size that carries target dimensions. -/
lemma resize_image_eq {sz : ImageSize} {tw th : Nat}
    (hd : ImageSize.get_dimensions sz = some (tw, th)) (img : NDImage) :
    ImageHandler.resize_image img sz =
      if img.width > img.height then
        cv2_resize img (min img.width tw)
          (min img.width tw * img.height / img.width)
      else
        cv2_resize img (min img.height th * img.width / img.height)
          (min img.height th) := by
  unfold ImageHandler.resize_image
  rw [if_neg (get_dimensions_ne_original hd), hd]

/-- Floor division bound: a is below the next multiple of b. -/
lemma lt_div_succ_mul (a b : Nat) (hb : 0 < b) : a < (a / b + 1) * b := by
  have h1 := Nat.div_add_mod a b
  have h2 := Nat.mod_lt a hb
  calc a = b * (a / b) + a % b := h1.symm
    _ < b * (a / b) + b := by omega
    _ = (a / b + 1) * b := by ring

/-- C2, counterexample: a 2000 by 1500 image resized with the SMALL
(1280 by 720) option yields 1280 by 960, whose height exceeds the target
height, so the output does not stay inside the target bounding box on both
axes as the claim states. -/
theorem C2_counterexample :
    (ImageHandler.resize_image (mkImg 2000 1500 (some 3))
        ImageSize.SMALL).width = 1280 ∧
    (ImageHandler.resize_image (mkImg 2000 1500 (some 3))
        ImageSize.SMALL).height = 960 ∧
    ¬ ((ImageHandler.resize_image (mkImg 2000 1500 (some 3))
        ImageSize.SMALL).height ≤ 720) := by
  refine ⟨rfl, rfl, by decide⟩

/-- C2, amended: for every image with positive dimensions and every size
option that carries target dimensions, resize_image follows the code: when
width is strictly greater than height the output width is min(width,
targetWidth) and the output height is the floor of that width divided by the
aspect ratio, and the output width stays within targetWidth; otherwise
(including square images) the output height is min(height, targetHeight), the
output width is derived, and the output height stays within targetHeight.
Only the constrained axis is bounded by the target. -/
theorem C2_resize_algorithm {img : NDImage} {sz : ImageSize} {tw th : Nat}
    (hd : ImageSize.get_dimensions sz = some (tw, th))
    (hw : 0 < img.width) (hh : 0 < img.height) :
    (img.width > img.height →
      (ImageHandler.resize_image img sz).width = min img.width tw ∧
      (ImageHandler.resize_image img sz).height =
        min img.width tw * img.height / img.width ∧
      (ImageHandler.resize_image img sz).width ≤ tw) ∧
    (¬ img.width > img.height →
      (ImageHandler.resize_image img sz).height = min img.height th ∧
      (ImageHandler.resize_image img sz).width =
        min img.height th * img.width / img.height ∧
      (ImageHandler.resize_image img sz).height ≤ th) := by
  rw [resize_image_eq hd]
  by_cases hcmp : img.width > img.height
  · rw [if_pos hcmp]
    exact ⟨fun _ => ⟨rfl, rfl, by simp⟩, fun hn => absurd hcmp hn⟩
  · rw [if_neg hcmp]
    exact ⟨fun hc => absurd hc hcmp, fun _ => ⟨rfl, rfl, by simp⟩⟩

/-- C2, witness for the amended theorem at a concrete input. -/
theorem C2_witness :
    ImageSize.get_dimensions ImageSize.SMALL = some (1280, 720) ∧
    0 < (mkImg 2000 1500 (some 3)).width ∧
    0 < (mkImg 2000 1500 (some 3)).height ∧
    (((mkImg 2000 1500 (some 3)).width > (mkImg 2000 1500 (some 3)).height →
      (ImageHandler.resize_image (mkImg 2000 1500 (some 3))
          ImageSize.SMALL).width =
        min (mkImg 2000 1500 (some 3)).width 1280 ∧
      (ImageHandler.resize_image (mkImg 2000 1500 (some 3))
          ImageSize.SMALL).height =
        min (mkImg 2000 1500 (some 3)).width 1280 *
          (mkImg 2000 1500 (some 3)).height /
          (mkImg 2000 1500 (some 3)).width ∧
      (ImageHandler.resize_image (mkImg 2000 1500 (some 3))
          ImageSize.SMALL).width ≤ 1280) ∧
    (¬ (mkImg 2000 1500 (some 3)).width > (mkImg 2000 1500 (some 3)).height →
      (ImageHandler.resize_image (mkImg 2000 1500 (some 3))
          ImageSize.SMALL).height =
        min (mkImg 2000 1500 (some 3)).height 720 ∧
      (ImageHandler.resize_image (mkImg 2000 1500 (some 3))
          ImageSize.SMALL).width =
        min (mkImg 2000 1500 (some 3)).height 720 *
          (mkImg 2000 1500 (some 3)).width /
          (mkImg 2000 1500 (some 3)).height ∧
      (ImageHandler.resize_image (mkImg 2000 1500 (some 3))
          ImageSize.SMALL).height ≤ 720)) :=
  ⟨rfl, by decide, by decide,
    C2_resize_algorithm rfl (by decide) (by decide)⟩

/-- C7: for every image with positive dimensions and every size option other
than ORIGINAL (equivalently, one whose dimension lookup yields targets), the
resize output stays within the target bound on the constrained (minimized)
axis, keeps the aspect ratio up to the floor of the exact rational value
(so within one pixel), never exceeds the input dimensions on either axis, and
leaves images already within both bounds unchanged. -/
theorem C7_resize_engine {img : NDImage} {sz : ImageSize} {tw th : Nat}
    (hd : ImageSize.get_dimensions sz = some (tw, th))
    (hw : 0 < img.width) (hh : 0 < img.height) :
    (img.width > img.height →
      (ImageHandler.resize_image img sz).width ≤ tw ∧
      (ImageHandler.resize_image img sz).height * img.width ≤
        (ImageHandler.resize_image img sz).width * img.height ∧
      (ImageHandler.resize_image img sz).width * img.height <
        ((ImageHandler.resize_image img sz).height + 1) * img.width) ∧
    (img.width ≤ img.height →
      (ImageHandler.resize_image img sz).height ≤ th ∧
      (ImageHandler.resize_image img sz).width * img.height ≤
        (ImageHandler.resize_image img sz).height * img.width ∧
      (ImageHandler.resize_image img sz).height * img.width <
        ((ImageHandler.resize_image img sz).width + 1) * img.height) ∧
    (ImageHandler.resize_image img sz).width ≤ img.width ∧
    (ImageHandler.resize_image img sz).height ≤ img.height ∧
    (img.width ≤ tw → img.height ≤ th →
      (ImageHandler.resize_image img sz).width = img.width ∧
      (ImageHandler.resize_image img sz).height = img.height) := by
  rw [resize_image_eq hd]
  by_cases hcmp : img.width > img.height
  · rw [if_pos hcmp]
    simp only [cv2_resize_width, cv2_resize_height]
    refine ⟨fun _ => ⟨min_le_right _ _, Nat.div_mul_le_self _ _,
        lt_div_succ_mul _ _ hw⟩,
      fun hle => absurd hcmp (by omega),
      min_le_left _ _, ?_, ?_⟩
    · calc min img.width tw * img.height / img.width
          ≤ img.width * img.height / img.width :=
            Nat.div_le_div_right
              (Nat.mul_le_mul_right _ (min_le_left _ _))
        _ = img.height := Nat.mul_div_cancel_left _ hw
    · intro hwtw _
      rw [min_eq_left hwtw]
      exact ⟨rfl, Nat.mul_div_cancel_left _ hw⟩
  · rw [if_neg hcmp]
    simp only [cv2_resize_width, cv2_resize_height]
    refine ⟨fun hgt => absurd hgt hcmp,
      fun _ => ⟨min_le_right _ _, Nat.div_mul_le_self _ _,
        lt_div_succ_mul _ _ hh⟩,
      ?_, min_le_left _ _, ?_⟩
    · calc min img.height th * img.width / img.height
          ≤ img.height * img.width / img.height :=
            Nat.div_le_div_right
              (Nat.mul_le_mul_right _ (min_le_left _ _))
        _ = img.width := Nat.mul_div_cancel_left _ hh
    · intro _ hhth
      rw [min_eq_left hhth]
      exact ⟨Nat.mul_div_cancel_left _ hh, rfl⟩

/-- C7, witness at the 500 by 500 image with the LARGE (1440p) option, the
scenario named by the spec: the hypotheses hold and the image is unchanged. -/
theorem C7_witness :
    ImageSize.get_dimensions ImageSize.LARGE = some (2560, 1440) ∧
    0 < (mkImg 500 500 (some 3)).width ∧
    0 < (mkImg 500 500 (some 3)).height ∧
    (((mkImg 500 500 (some 3)).width > (mkImg 500 500 (some 3)).height →
      (ImageHandler.resize_image (mkImg 500 500 (some 3))
          ImageSize.LARGE).width ≤ 2560 ∧
      (ImageHandler.resize_image (mkImg 500 500 (some 3))
          ImageSize.LARGE).height * (mkImg 500 500 (some 3)).width ≤
        (ImageHandler.resize_image (mkImg 500 500 (some 3))
          ImageSize.LARGE).width * (mkImg 500 500 (some 3)).height ∧
      (ImageHandler.resize_image (mkImg 500 500 (some 3))
          ImageSize.LARGE).width * (mkImg 500 500 (some 3)).height <
        ((ImageHandler.resize_image (mkImg 500 500 (some 3))
          ImageSize.LARGE).height + 1) * (mkImg 500 500 (some 3)).width) ∧
    ((mkImg 500 500 (some 3)).width ≤ (mkImg 500 500 (some 3)).height →
      (ImageHandler.resize_image (mkImg 500 500 (some 3))
          ImageSize.LARGE).height ≤ 1440 ∧
      (ImageHandler.resize_image (mkImg 500 500 (some 3))
          ImageSize.LARGE).width * (mkImg 500 500 (some 3)).height ≤
        (ImageHandler.resize_image (mkImg 500 500 (some 3))
          ImageSize.LARGE).height * (mkImg 500 500 (some 3)).width ∧
      (ImageHandler.resize_image (mkImg 500 500 (some 3))
          ImageSize.LARGE).height * (mkImg 500 500 (some 3)).width <
        ((ImageHandler.resize_image (mkImg 500 500 (some 3))
          ImageSize.LARGE).width + 1) * (mkImg 500 500 (some 3)).height) ∧
    (ImageHandler.resize_image (mkImg 500 500 (some 3))
        ImageSize.LARGE).width ≤ (mkImg 500 500 (some 3)).width ∧
    (ImageHandler.resize_image (mkImg 500 500 (some 3))
        ImageSize.LARGE).height ≤ (mkImg 500 500 (some 3)).height ∧
    ((mkImg 500 500 (some 3)).width ≤ 2560 →
      (mkImg 500 500 (some 3)).height ≤ 1440 →
      (ImageHandler.resize_image (mkImg 500 500 (some 3))
          ImageSize.LARGE).width = (mkImg 500 500 (some 3)).width ∧
      (ImageHandler.resize_image (mkImg 500 500 (some 3))
          ImageSize.LARGE).height = (mkImg 500 500 (some 3)).height)) :=
  ⟨rfl, by decide, by decide,
    C7_resize_engine rfl (by decide) (by decide)⟩

/-- C4, counterexample: the size menu offers a fifth label "5000", which is
none of the four labels of the claimed catalog, because the enum carries the
extra member HUGE with dimensions 5000 by 5000. -/
theorem C4_counterexample :
    ["5000"] ∈ create_size_keyboard ∧
    ¬ "5000" ∈ ["original", "720p", "1080p", "1440p"] ∧
    ImageSize.get_dimensions ImageSize.HUGE = some (5000, 5000) := by
  decide

/-- C4, amended: the catalog is ORIGINAL, SMALL (1280 by 720), MEDIUM (1920 by
1080), LARGE (2560 by 1440) and HUGE (5000 by 5000); the dimension lookup
yields the fixed targets for every member except ORIGINAL, is absent for
ORIGINAL, and the menu offers exactly the five corresponding labels. -/
theorem C4_size_catalog :
    ImageSize.get_dimensions ImageSize.ORIGINAL = none ∧
    ImageSize.get_dimensions ImageSize.SMALL = some (1280, 720) ∧
    ImageSize.get_dimensions ImageSize.MEDIUM = some (1920, 1080) ∧
    ImageSize.get_dimensions ImageSize.LARGE = some (2560, 1440) ∧
    ImageSize.get_dimensions ImageSize.HUGE = some (5000, 5000) ∧
    create_size_keyboard =
      [["original"], ["720p"], ["1080p"], ["1440p"], ["5000"]] := by
  decide

/-- C3, counterexample: a 2-dimensional (single-channel grayscale) 100 by 80
source converted to jpg passes the channel-handling block untouched and keeps
1 channel, so the artifact after normalization does not always have 3 or 4
channels. -/
theorem C3_counterexample :
    ImageConverter.normalizeChannels "jpg" (mkImg 100 80 none) =
      .ok (mkImg 100 80 none) ∧
    (mkImg 100 80 none).channels = 1 ∧
    ¬ ((mkImg 100 80 none).channels = 3 ∨
       (mkImg 100 80 none).channels = 4) :=
  ⟨rfl, rfl, by decide⟩

/-- C3, amended: when the decoded source has 3 or 4 channels, the artifact
after the channel-handling block has exactly 3 or 4 channels for any target
format; a 2-dimensional grayscale source converted to a non-png format is left
entirely unnormalized, keeping its single channel. -/
theorem C3_channels_after_normalization (fmt : String) (img : NDImage) :
    ((img.channelDim = some 3 ∨ img.channelDim = some 4) →
      ∃ i2, ImageConverter.normalizeChannels fmt img = .ok i2 ∧
        (i2.channels = 3 ∨ i2.channels = 4)) ∧
    (img.channelDim = none → ¬ fmt = "png" →
      ImageConverter.normalizeChannels fmt img = .ok img) := by
  constructor
  · intro hc
    by_cases hp : fmt = "png"
    · rcases hc with h3 | h4
      · refine ⟨withOpaqueAlpha img, ?_, Or.inr rfl⟩
        simp [ImageConverter.normalizeChannels, NDImage.shapeLast, hp, h3,
          cvtColor_BGR2BGRA]
      · refine ⟨img, ?_, Or.inr (by simp [NDImage.channels, h4])⟩
        simp [ImageConverter.normalizeChannels, NDImage.shapeLast, hp, h4]
    · rcases hc with h3 | h4
      · refine ⟨img, ?_, Or.inl (by simp [NDImage.channels, h3])⟩
        simp [ImageConverter.normalizeChannels, NDImage.shapeLast, hp, h3]
      · refine ⟨withoutAlpha img, ?_, Or.inl rfl⟩
        simp [ImageConverter.normalizeChannels, NDImage.shapeLast,
          NDImage.ndim, hp, h4, cvtColor_BGRA2BGR]
  · intro hn hp
    simp [ImageConverter.normalizeChannels, NDImage.shapeLast, NDImage.ndim,
      hn, hp]

/-- C3, witness for the amended theorem: a 3-channel source converted to png
comes out with 4 channels. -/
theorem C3_witness :
    ((mkImg 10 10 (some 3)).channelDim = some 3 ∨
      (mkImg 10 10 (some 3)).channelDim = some 4) ∧
    (∃ i2, ImageConverter.normalizeChannels "png" (mkImg 10 10 (some 3)) =
        .ok i2 ∧ (i2.channels = 3 ∨ i2.channels = 4)) :=
  ⟨Or.inl rfl,
    (C3_channels_after_normalization "png" (mkImg 10 10 (some 3))).1
      (Or.inl rfl)⟩

/-- C6: a 3-channel source destined for png gains a fourth, fully opaque
(value 255) alpha channel; a 4-channel source destined for any non-png format
loses its alpha channel, coming out with 3 channels. -/
theorem C6_alpha_normalization (fmt : String) (img : NDImage) :
    (fmt = "png" → img.channelDim = some 3 →
      ∃ i2, ImageConverter.normalizeChannels fmt img = .ok i2 ∧
        i2.channelDim = some 4 ∧ ∀ r c, i2.pixel r c 3 = 255) ∧
    (¬ fmt = "png" → img.channelDim = some 4 →
      ∃ i2, ImageConverter.normalizeChannels fmt img = .ok i2 ∧
        i2.channelDim = some 3) := by
  constructor
  · intro hp h3
    refine ⟨withOpaqueAlpha img, ?_, rfl, fun r c => rfl⟩
    simp [ImageConverter.normalizeChannels, NDImage.shapeLast, hp, h3,
      cvtColor_BGR2BGRA]
  · intro hp h4
    refine ⟨withoutAlpha img, ?_, rfl⟩
    simp [ImageConverter.normalizeChannels, NDImage.shapeLast, NDImage.ndim,
      hp, h4, cvtColor_BGRA2BGR]

/-- C6, witness: a concrete 3-channel image to png gains the opaque alpha, and
a concrete 4-channel image to jpg drops it. -/
theorem C6_witness :
    ("png" = "png" ∧ (mkImg 8 6 (some 3)).channelDim = some 3 ∧
      ∃ i2, ImageConverter.normalizeChannels "png" (mkImg 8 6 (some 3)) =
        .ok i2 ∧ i2.channelDim = some 4 ∧ ∀ r c, i2.pixel r c 3 = 255) ∧
    (¬ "jpg" = "png" ∧ (mkImg 8 6 (some 4)).channelDim = some 4 ∧
      ∃ i2, ImageConverter.normalizeChannels "jpg" (mkImg 8 6 (some 4)) =
        .ok i2 ∧ i2.channelDim = some 3) :=
  ⟨⟨rfl, rfl,
    (C6_alpha_normalization "png" (mkImg 8 6 (some 3))).1 rfl rfl⟩,
   ⟨by decide, rfl,
    (C6_alpha_normalization "jpg" (mkImg 8 6 (some 4))).2 (by decide) rfl⟩⟩

/-- C10: every send_processed_image call writes and afterwards removes exactly
the path "downloads/temp_output." followed by the format; the path depends on
the format alone, so any two invocations with the same format, whatever their
conversation, image, delivery outcome or caption, use the identical file. -/
theorem C10_temp_path_determined_by_format (ok1 ok2 : Bool)
    (fs1 fs2 : FileSystem) (img1 img2 : NDImage) (fmt op1 op2 : String) :
    (ImageHandler.send_processed_image ok1 fs1 img1 fmt op1).trace =
      [FsEvent.write ("downloads/temp_output." ++ fmt),
       FsEvent.remove ("downloads/temp_output." ++ fmt)] ∧
    (ImageHandler.send_processed_image ok1 fs1 img1 fmt op1).trace =
      (ImageHandler.send_processed_image ok2 fs2 img2 fmt op2).trace := by
  cases ok1 <;> cases ok2 <;>
    simp [ImageHandler.send_processed_image, temp_path_for]

/-- C5: the code evaluated at the failing input.  Two concurrent
conversations both convert their own upload to png.  Because the temp-file
critical section of each runs as one uninterrupted event-loop slice, the two
slices can only run one after the other, in either order, and neither
conversation ever observes the artifact of the other; but the delivery
attempt raises TypeError before any read-back, so under both orders neither
conversation receives the result computed from its own upload — each flow
ends with the caught error answered as a Conversion Error text instead of a
delivered photo, and the shared directory ends empty. -/
theorem C5_no_result_ever_delivered :
    (∀ c : Option Nat, asyncWithOpen c =
      .error "TypeError: builtin file object is not an async context manager") ∧
    (∀ aFirst : Bool,
      (runBoth
        { store := [],
          a := { format_type := "png", content := 1, delivered := none },
          b := { format_type := "png", content := 2, delivered := none } }
        aFirst).a.delivered = none ∧
      (runBoth
        { store := [],
          a := { format_type := "png", content := 1, delivered := none },
          b := { format_type := "png", content := 2, delivered := none } }
        aFirst).b.delivered = none ∧
      (runBoth
        { store := [],
          a := { format_type := "png", content := 1, delivered := none },
          b := { format_type := "png", content := 2, delivered := none } }
        aFirst).store = []) ∧
    (ImageConverter.process "png"
        { decoded := some (mkImg 2 2 (some 3)), rembg := id, sendOk := false }
        [] ImageSize.ORIGINAL).2 =
      [Msg.text "🔴 Conversion Error: Failed to send processed image"] ∧
    (ImageConverter.process "png"
        { decoded := some (mkImg 4 4 (some 3)), rembg := id, sendOk := false }
        [] ImageSize.ORIGINAL).2 =
      [Msg.text "🔴 Conversion Error: Failed to send processed image"] := by
  refine ⟨fun c => rfl, fun aFirst => ?_, rfl, rfl⟩
  cases aFirst <;> exact ⟨rfl, rfl, by decide⟩

/-- C1: the code evaluated at the failing input.  A conversation waiting for a
size choice, holding a stored file path and operation choice, receives the
unmatched token "4k": the handler answers only the rejection text, yet its
finally block clears the whole session (state and stored data) and deletes
the downloaded source file, instead of leaving everything unchanged. -/
theorem C1_invalid_size_clears_session :
    (handle_size_choice
        { decoded := some (mkImg 10 10 (some 3)), rembg := id, sendOk := true }
        { st := some FSMState.selecting_size,
          data := { file_path := some "downloads/file7.jpg",
                    format_choice := some "1" } }
        "4k" ["downloads/file7.jpg"]).msgs =
      [Msg.text "❌ Invalid size choice. Please select from the keyboard options."] ∧
    (handle_size_choice
        { decoded := some (mkImg 10 10 (some 3)), rembg := id, sendOk := true }
        { st := some FSMState.selecting_size,
          data := { file_path := some "downloads/file7.jpg",
                    format_choice := some "1" } }
        "4k" ["downloads/file7.jpg"]).ctx = FSMContext.clear ∧
    ¬ "downloads/file7.jpg" ∈
      (handle_size_choice
        { decoded := some (mkImg 10 10 (some 3)), rembg := id, sendOk := true }
        { st := some FSMState.selecting_size,
          data := { file_path := some "downloads/file7.jpg",
                    format_choice := some "1" } }
        "4k" ["downloads/file7.jpg"]).fs :=
  ⟨rfl, by decide, by decide⟩

lemma cleanup_files_mem {paths : List String} {fs : FileSystem}
    {p : String} :
    p ∈ ImageHandler.cleanup_files paths fs ↔ p ∈ fs ∧ ¬ p ∈ paths := by
  simp [ImageHandler.cleanup_files]

/-- Whatever the delivery outcome, send_processed_image leaves no path on
disk that was not there before (the temp file it writes is removed by its
finally clause). -/
lemma send_fs_mem {ok : Bool} {fs : FileSystem} {image : NDImage}
    {fmt opn p : String}
    (hp : p ∈ (ImageHandler.send_processed_image ok fs image fmt opn).fs) :
    p ∈ fs := by
  cases ok <;>
    simp [ImageHandler.send_processed_image,
      ImageHandler.cleanup_files] at hp <;>
    exact hp.1

/-- The temp file itself is never present after send_processed_image. -/
lemma send_fs_no_temp {ok : Bool} {fs : FileSystem} {image : NDImage}
    {fmt opn : String} :
    ¬ temp_path_for fmt ∈
      (ImageHandler.send_processed_image ok fs image fmt opn).fs := by
  cases ok <;>
    simp [ImageHandler.send_processed_image, ImageHandler.cleanup_files]

lemma catchSend_fst (r : SendResult) (s : String) :
    (catchSend r s).1 = r.fs := by
  unfold catchSend
  cases r.result <;> rfl

lemma catchSend_of_send_ne_nil {ok : Bool} {fs : FileSystem}
    {image : NDImage} {fmt opn s : String} :
    (catchSend (ImageHandler.send_processed_image ok fs image fmt opn)
      s).2 ≠ [] := by
  cases ok <;> simp [catchSend, ImageHandler.send_processed_image]

lemma catchSend_of_send_fail {fs : FileSystem} {image : NDImage}
    {fmt opn s : String} :
    Msg.text (s ++ "Failed to send processed image") ∈
      (catchSend (ImageHandler.send_processed_image false fs image fmt opn)
        s).2 := by
  simp [catchSend, ImageHandler.send_processed_image]

lemma converter_fs_mem {fmt : String} {env : Env} {fs : FileSystem}
    {sz : ImageSize} {p : String}
    (hp : p ∈ (ImageConverter.process fmt env fs sz).1) : p ∈ fs := by
  obtain ⟨dec, rb, ok⟩ := env
  cases dec with
  | none => simpa [ImageConverter.process] using hp
  | some im =>
    rcases hn : ImageConverter.normalizeChannels fmt im with e | i1
    · simpa [ImageConverter.process, hn] using hp
    · simp only [ImageConverter.process, hn] at hp
      rw [catchSend_fst] at hp
      exact send_fs_mem hp

lemma remover_fs_mem {env : Env} {fs : FileSystem} {sz : ImageSize}
    {p : String}
    (hp : p ∈ (BackgroundRemover.process env fs sz).1) : p ∈ fs := by
  obtain ⟨dec, rb, ok⟩ := env
  cases dec with
  | none => simpa [BackgroundRemover.process] using hp
  | some im =>
    simp only [BackgroundRemover.process] at hp
    rw [catchSend_fst] at hp
    exact send_fs_mem hp

lemma runHandler_fs_mem {op : Operation} {env : Env} {fs : FileSystem}
    {sz : ImageSize} {p : String}
    (hp : p ∈ (runHandler op env fs sz).1) : p ∈ fs := by
  cases op <;>
    first
      | exact converter_fs_mem hp
      | exact remover_fs_mem hp

lemma converter_msgs_ne_nil {fmt : String} {env : Env} {fs : FileSystem}
    {sz : ImageSize} :
    (ImageConverter.process fmt env fs sz).2 ≠ [] := by
  obtain ⟨dec, rb, ok⟩ := env
  cases dec with
  | none => simp [ImageConverter.process]
  | some im =>
    rcases hn : ImageConverter.normalizeChannels fmt im with e | i1 <;>
      simp only [ImageConverter.process, hn]
    · simp
    · exact catchSend_of_send_ne_nil

lemma remover_msgs_ne_nil {env : Env} {fs : FileSystem} {sz : ImageSize} :
    (BackgroundRemover.process env fs sz).2 ≠ [] := by
  obtain ⟨dec, rb, ok⟩ := env
  cases dec with
  | none => simp [BackgroundRemover.process]
  | some im =>
    simp only [BackgroundRemover.process]
    exact catchSend_of_send_ne_nil

lemma runHandler_msgs_ne_nil {op : Operation} {env : Env} {fs : FileSystem}
    {sz : ImageSize} :
    (runHandler op env fs sz).2 ≠ [] := by
  cases op <;>
    first
      | exact converter_msgs_ne_nil
      | exact remover_msgs_ne_nil

lemma converter_err_msg {fmt : String} {env : Env} {fs : FileSystem}
    {sz : ImageSize}
    (h : env.decoded = none ∨ env.sendOk = false) :
    ∃ s, Msg.text s ∈ (ImageConverter.process fmt env fs sz).2 := by
  obtain ⟨dec, rb, ok⟩ := env
  cases dec with
  | none =>
    refine ⟨"🔴 Conversion Error: Failed to read image file", ?_⟩
    simp [ImageConverter.process]
  | some im =>
    rcases hn : ImageConverter.normalizeChannels fmt im with e | i1
    · refine ⟨"🔴 Conversion Error: " ++ e, ?_⟩
      simp [ImageConverter.process, hn]
    · rcases h with h | h
      · exact absurd h (by simp)
      · simp only at h
        subst h
        simp only [ImageConverter.process, hn]
        exact ⟨_, catchSend_of_send_fail⟩

lemma remover_err_msg {env : Env} {fs : FileSystem} {sz : ImageSize}
    (h : env.decoded = none ∨ env.sendOk = false) :
    ∃ s, Msg.text s ∈ (BackgroundRemover.process env fs sz).2 := by
  obtain ⟨dec, rb, ok⟩ := env
  cases dec with
  | none =>
    refine ⟨"🔴 Background Removal Error: file open failed", ?_⟩
    simp [BackgroundRemover.process]
  | some im =>
    rcases h with h | h
    · exact absurd h (by simp)
    · simp only at h
      subst h
      simp only [BackgroundRemover.process]
      exact ⟨_, catchSend_of_send_fail⟩

lemma runHandler_err_msg {op : Operation} {env : Env} {fs : FileSystem}
    {sz : ImageSize}
    (h : env.decoded = none ∨ env.sendOk = false) :
    ∃ s, Msg.text s ∈ (runHandler op env fs sz).2 := by
  cases op <;>
    first
      | exact converter_err_msg h
      | exact remover_err_msg h

/-- C8: whatever the environment, filesystem state and target size, any photo
the background remover delivers carries format "png"; the requested or
menu-available format never reaches it. -/
theorem C8_background_removal_sends_png (env : Env) (fs : FileSystem)
    (sz : ImageSize) (fmt : String) (img : NDImage) (cap : String)
    (hmem : Msg.photo fmt img cap ∈ (BackgroundRemover.process env fs sz).2) :
    fmt = "png" := by
  obtain ⟨dec, rb, ok⟩ := env
  cases dec with
  | none => simp [BackgroundRemover.process] at hmem
  | some im =>
    cases ok with
    | true =>
      simp [BackgroundRemover.process, catchSend,
        ImageHandler.send_processed_image] at hmem
      exact hmem.1
    | false =>
      simp [BackgroundRemover.process, catchSend,
        ImageHandler.send_processed_image] at hmem

/-- C8, witness: a concrete delivered background-removal photo, whose format
the theorem then pins to png. -/
theorem C8_witness :
    (Msg.photo "png" (mkImg 1 1 (some 4))
        "✅ Background removal completed successfully!\nResolution: 1x1" ∈
      (BackgroundRemover.process
        { decoded := some (mkImg 1 1 (some 4)), rembg := id, sendOk := true }
        [] ImageSize.ORIGINAL).2) ∧
    "png" = "png" := by
  have hm : Msg.photo "png" (mkImg 1 1 (some 4))
      "✅ Background removal completed successfully!\nResolution: 1x1" ∈
      (BackgroundRemover.process
        { decoded := some (mkImg 1 1 (some 4)), rembg := id, sendOk := true }
        [] ImageSize.ORIGINAL).2 := by
    exact List.Mem.head _
  exact ⟨hm, C8_background_removal_sends_png _ _ _ _ _ _ hm⟩

/-- Shape of a handle_size_choice run whose size token matches and whose data
dict is fully populated with a registered operation key: the session is
cleared, the chosen operation runs, and the finally clause removes the
downloaded source file. -/
lemma handle_size_choice_valid {env : Env} {ctx : FSMContext} {text : String}
    {fs0 : FileSystem} {sz : ImageSize} {fp fc : String} {op : Operation}
    (hsz : lookupSize (pyStrip text) = some sz)
    (hfp : ctx.data.file_path = some fp)
    (hfc : ctx.data.format_choice = some fc)
    (hop : handlers fc = some op) :
    handle_size_choice env ctx text fs0 =
      { ctx := FSMContext.clear,
        fs := ImageHandler.cleanup_files [fp] (runHandler op env fs0 sz).1,
        msgs := (runHandler op env fs0 sz).2 } := by
  obtain ⟨st, f1, f2⟩ := ctx
  dsimp only at hfp hfc
  subst hfp
  subst hfc
  simp [handle_size_choice, hsz, hop]

/-- C9: a handler invocation with a valid size token and a populated session
(a stored file path and a registered operation choice), whatever the
processing outcome, clears the session back to the initial no-state context,
removes the downloaded source file, leaves no file behind that was not
already present (in particular the encoded temp output is removed after the
send attempt), always answers at least one message, and turns decode or send
failures into an answered text instead of propagating them. -/
theorem C9_cleanup_and_error_containment {env : Env} {ctx : FSMContext}
    {text : String} {fs0 : FileSystem} {sz : ImageSize} {fp fc : String}
    {op : Operation}
    (hsz : lookupSize (pyStrip text) = some sz)
    (hfp : ctx.data.file_path = some fp)
    (hfc : ctx.data.format_choice = some fc)
    (hop : handlers fc = some op) :
    (handle_size_choice env ctx text fs0).ctx = FSMContext.clear ∧
    ¬ fp ∈ (handle_size_choice env ctx text fs0).fs ∧
    (∀ p, p ∈ (handle_size_choice env ctx text fs0).fs → p ∈ fs0) ∧
    (handle_size_choice env ctx text fs0).msgs ≠ [] ∧
    (env.decoded = none →
      ∃ s, Msg.text s ∈ (handle_size_choice env ctx text fs0).msgs) ∧
    (env.sendOk = false →
      ∃ s, Msg.text s ∈ (handle_size_choice env ctx text fs0).msgs) := by
  rw [handle_size_choice_valid hsz hfp hfc hop]
  refine ⟨rfl, ?_, ?_, ?_, ?_, ?_⟩
  · simp [cleanup_files_mem]
  · intro p hp
    rw [cleanup_files_mem] at hp
    exact runHandler_fs_mem hp.1
  · exact runHandler_msgs_ne_nil
  · exact fun h => runHandler_err_msg (Or.inl h)
  · exact fun h => runHandler_err_msg (Or.inr h)

/-- C9, witness: a populated session choosing 720p with the png conversion
operation in a successful environment. -/
theorem C9_witness :
    lookupSize (pyStrip "720p") = some ImageSize.SMALL ∧
    ({ st := some FSMState.selecting_size,
       data := { file_path := some "downloads/a.jpg",
                 format_choice := some "1" } } :
        FSMContext).data.file_path = some "downloads/a.jpg" ∧
    ({ st := some FSMState.selecting_size,
       data := { file_path := some "downloads/a.jpg",
                 format_choice := some "1" } } :
        FSMContext).data.format_choice = some "1" ∧
    handlers "1" = some Operation.convertPng ∧
    ((handle_size_choice
        { decoded := some (mkImg 10 10 (some 3)), rembg := id,
          sendOk := true }
        { st := some FSMState.selecting_size,
          data := { file_path := some "downloads/a.jpg",
                    format_choice := some "1" } }
        "720p" ["downloads/a.jpg"]).ctx = FSMContext.clear ∧
    ¬ "downloads/a.jpg" ∈
      (handle_size_choice
        { decoded := some (mkImg 10 10 (some 3)), rembg := id,
          sendOk := true }
        { st := some FSMState.selecting_size,
          data := { file_path := some "downloads/a.jpg",
                    format_choice := some "1" } }
        "720p" ["downloads/a.jpg"]).fs ∧
    (∀ p, p ∈
      (handle_size_choice
        { decoded := some (mkImg 10 10 (some 3)), rembg := id,
          sendOk := true }
        { st := some FSMState.selecting_size,
          data := { file_path := some "downloads/a.jpg",
                    format_choice := some "1" } }
        "720p" ["downloads/a.jpg"]).fs → p ∈ ["downloads/a.jpg"]) ∧
    (handle_size_choice
        { decoded := some (mkImg 10 10 (some 3)), rembg := id,
          sendOk := true }
        { st := some FSMState.selecting_size,
          data := { file_path := some "downloads/a.jpg",
                    format_choice := some "1" } }
        "720p" ["downloads/a.jpg"]).msgs ≠ [] ∧
    (({ decoded := some (mkImg 10 10 (some 3)), rembg := id,
        sendOk := true } : Env).decoded = none →
      ∃ s, Msg.text s ∈
        (handle_size_choice
          { decoded := some (mkImg 10 10 (some 3)), rembg := id,
            sendOk := true }
          { st := some FSMState.selecting_size,
            data := { file_path := some "downloads/a.jpg",
                      format_choice := some "1" } }
          "720p" ["downloads/a.jpg"]).msgs) ∧
    (({ decoded := some (mkImg 10 10 (some 3)), rembg := id,
        sendOk := true } : Env).sendOk = false →
      ∃ s, Msg.text s ∈
        (handle_size_choice
          { decoded := some (mkImg 10 10 (some 3)), rembg := id,
            sendOk := true }
          { st := some FSMState.selecting_size,
            data := { file_path := some "downloads/a.jpg",
                      format_choice := some "1" } }
          "720p" ["downloads/a.jpg"]).msgs)) :=
  ⟨by decide, rfl, rfl, by decide,
    C9_cleanup_and_error_containment
      (show lookupSize (pyStrip "720p") = some ImageSize.SMALL by decide)
      rfl rfl
      (show handlers "1" = some Operation.convertPng by decide)⟩

end ImageBot
